import Mathlib

/-!
Shallow embedding of `crates/wasmtime/src/ref.rs`.

The Rust code manages shared, runtime-borrow-checked cells:

* `HostRef<T>` is `Rc<RefCell<ContentBox<T>>>`, where `ContentBox<T>` holds
  `content : T`, `host_info : Option<Box<dyn Any>>`, and a weak back-pointer
  `externref_data : Weak<dyn InternalRefBase>` caching the lazily minted
  type-erased handle.
* `InternalRef` is `Rc<dyn InternalRefBase>`; the erased object is a clone of
  the `HostRef<T>` itself, so it remembers both the cell it shares and the
  concrete type `T`.
* `OtherRef` is `Rc<RefCell<AnyAndHostInfo>>` for host-external data.
* `ExternRef` is the tagged union `Null | Ref(InternalRef) | Other(OtherRef)`.

The embedding makes the heap explicit: a `State` holds one table per kind of
`Rc` allocation, addressed by `Nat` ids.  `Rc::ptr_eq` becomes id equality,
`RefCell`'s dynamic borrow state becomes a `BorrowFlag` stored in each box,
and `Weak::upgrade` succeeds exactly when the cached allocation's strong
count is positive.  Values of type `T`/`Box<dyn Any>` are modelled as `Nat`,
and Rust's static types `T` as `Nat` type tags (`Any::is`/`downcast_ref`
compare tags).  Rust panics become `Except.error`: `RefCell` borrow panics
map to `BorrowConflict`, the failed `downcast_ref` expectation to
`TypeMismatch`, the `panic!("null")` in `host_info`/`set_host_info` to
`NullReferent`, and the `panic!("expected ExternRef::Other")` in `data` to
`NotExternal`.  `InvalidHandle` is a model artifact for dangling ids, which
well-typed Rust cannot produce.
-/

namespace WasmtimeRef

/-- Dynamic borrow state of one `RefCell`: no borrow, `n` outstanding shared
borrows, or one outstanding mutable borrow. -/
inductive BorrowFlag
  | free
  | reading (n : Nat)
  | writing
  deriving DecidableEq, Repr

/-- The failure modes of the embedded operations (Rust panics). -/
inductive RefError
  | BorrowConflict
  | TypeMismatch
  | NullReferent
  | NotExternal
  | InvalidHandle
  deriving DecidableEq, Repr

/-- `ContentBox<T>` from the source: the content, the optional host info,
and the weak cache of the minted `InternalRef` allocation (`none` models
`Weak::new()`; `some i` models a weak pointer to allocation `i`, which may
since have died).  `typeTag` records the concrete `T`, and `borrow` is the
runtime borrow state of the surrounding `RefCell`. -/
structure ContentBox where
  typeTag : Nat
  content : Nat
  host_info : Option Nat
  externref_data : Option Nat
  borrow : BorrowFlag
  deriving DecidableEq, Repr

/-- One `Rc<dyn InternalRefBase>` allocation: the erased object is a clone of
a `HostRef<T>`, so it carries the shared cell id and the concrete type tag
`T`; `strong` is the allocation's strong reference count. -/
structure IRAlloc where
  cell : Nat
  typeTag : Nat
  strong : Nat
  deriving DecidableEq, Repr

/-- `AnyAndHostInfo` behind an `OtherRef`: opaque payload, optional host
info, and the `RefCell` borrow state. -/
structure OtherBox where
  any : Nat
  host_info : Option Nat
  borrow : BorrowFlag
  deriving DecidableEq, Repr

/-- The explicit heap: one table per kind of `Rc` allocation.  Ids are
indices; allocation appends, so `List.length` is the next fresh id. -/
structure State where
  cells : List ContentBox
  irs : List IRAlloc
  others : List OtherBox
  deriving DecidableEq, Repr

/-- A `HostRef<T>` value: an owner of cell storage.  Clones share the id. -/
structure HostRef where
  cell : Nat
  deriving DecidableEq, Repr

/-- The `ExternRef` tagged union.  `Ref i` holds the id of an
`Rc<dyn InternalRefBase>` allocation, `Other o` the id of an `OtherRef`
cell. -/
inductive ExternRef
  | Null
  | Ref (ir : Nat)
  | Other (o : Nat)
  deriving DecidableEq, Repr

/-- `HostRef::new`: fresh cell, empty host info, empty weak cache
(`Weak::new()`), no outstanding borrow. -/
def HostRef.new (s : State) (tag item : Nat) : HostRef × State :=
  (⟨s.cells.length⟩,
   { s with
     cells := s.cells ++
       [{ typeTag := tag, content := item, host_info := none,
          externref_data := none, borrow := .free }] })

/-- `HostRef::borrow`: `RefCell::borrow`, mapped onto the content.  The
returned guard is modelled by bumping the read count in the result state;
panics (`BorrowConflict`) when a mutable borrow is outstanding. -/
def HostRef.borrow (s : State) (r : HostRef) : Except RefError (Nat × State) :=
  match s.cells[r.cell]? with
  | none => .error .InvalidHandle
  | some box =>
    match box.borrow with
    | .writing => .error .BorrowConflict
    | .free =>
      .ok (box.content,
        { s with cells := s.cells.set r.cell { box with borrow := .reading 1 } })
    | .reading n =>
      .ok (box.content,
        { s with cells := s.cells.set r.cell { box with borrow := .reading (n + 1) } })

/-- `HostRef::borrow_mut`: `RefCell::borrow_mut`, mapped onto the content.
Panics (`BorrowConflict`) when any borrow, shared or mutable, is
outstanding. -/
def HostRef.borrow_mut (s : State) (r : HostRef) : Except RefError (Nat × State) :=
  match s.cells[r.cell]? with
  | none => .error .InvalidHandle
  | some box =>
    match box.borrow with
    | .free =>
      .ok (box.content,
        { s with cells := s.cells.set r.cell { box with borrow := .writing } })
    | _ => .error .BorrowConflict

/-- Dropping one shared-borrow guard obtained from `HostRef.borrow`. -/
def HostRef.releaseBorrow (s : State) (r : HostRef) : State :=
  match s.cells[r.cell]? with
  | none => s
  | some box =>
    match box.borrow with
    | .reading 1 => { s with cells := s.cells.set r.cell { box with borrow := .free } }
    | .reading (n + 2) =>
      { s with cells := s.cells.set r.cell { box with borrow := .reading (n + 1) } }
    | _ => s

/-- Dropping the mutable-borrow guard obtained from `HostRef.borrow_mut`. -/
def HostRef.releaseBorrowMut (s : State) (r : HostRef) : State :=
  match s.cells[r.cell]? with
  | none => s
  | some box =>
    match box.borrow with
    | .writing => { s with cells := s.cells.set r.cell { box with borrow := .free } }
    | _ => s

/-- `HostRef::ptr_eq`: `Rc::ptr_eq` on the shared cell storage. -/
def HostRef.ptr_eq (a b : HostRef) : Bool :=
  a.cell == b.cell

/-- `impl Clone for HostRef`: the `Rc` clone shares the same storage. -/
def HostRef.clone (r : HostRef) : HostRef :=
  ⟨r.cell⟩

/-- `Weak::upgrade` on the cached `externref_data`: succeeds exactly when the
cache points at an allocation whose strong count is positive. -/
def weakUpgrade (s : State) (w : Option Nat) : Option (Nat × IRAlloc) :=
  match w with
  | none => none
  | some i =>
    match s.irs[i]? with
    | none => none
    | some a => if a.strong = 0 then none else some (i, a)

/-- `HostRef::externref`.  The first statement takes a transient
`RefCell::borrow_mut`, so the call panics (`BorrowConflict`) whenever any
borrow of the cell is outstanding — shared or mutable.  Otherwise: if the
weak cache upgrades, return the cached allocation (the upgraded `Rc` bumps
its strong count); else mint a fresh allocation holding a clone of `self`,
store its downgraded pointer in the cache, and return it. -/
def HostRef.externref (s : State) (r : HostRef) : Except RefError (ExternRef × State) :=
  match s.cells[r.cell]? with
  | none => .error .InvalidHandle
  | some box =>
    match box.borrow with
    | .free =>
      match weakUpgrade s box.externref_data with
      | some (i, a) =>
        .ok (.Ref i, { s with irs := s.irs.set i { a with strong := a.strong + 1 } })
      | none =>
        .ok (.Ref s.irs.length,
          { s with
            irs := s.irs ++ [({ cell := r.cell, typeTag := box.typeTag, strong := 1 } : IRAlloc)],
            cells := s.cells.set r.cell
              { box with externref_data := some s.irs.length } })
    | _ => .error .BorrowConflict

/-- Dropping an `ExternRef` value: for the `Ref` variant this releases one
strong count of the `InternalRef` allocation; `Null` owns nothing, and the
`OtherRef` count plays no role in any claim, so it is left unmodelled. -/
def ExternRef.dropHandle (s : State) (h : ExternRef) : State :=
  match h with
  | .Ref i =>
    match s.irs[i]? with
    | none => s
    | some a => { s with irs := s.irs.set i { a with strong := a.strong - 1 } }
  | _ => s

/-- `InternalRef::is_ref::<T>`: `Any::is::<HostRef<T>>` on the erased object,
i.e. a comparison of the allocation's concrete type tag with `T`. -/
def InternalRef.is_ref (s : State) (i : Nat) (tag : Nat) : Bool :=
  match s.irs[i]? with
  | none => false
  | some a => a.typeTag == tag

/-- `InternalRef::get_ref::<T>`: `downcast_ref::<HostRef<T>>` plus `clone`;
the `expect` panic on a type mismatch becomes `TypeMismatch`, and the clone
shares the erased cell. -/
def InternalRef.get_ref (s : State) (i : Nat) (tag : Nat) : Except RefError HostRef :=
  match s.irs[i]? with
  | none => .error .InvalidHandle
  | some a => if a.typeTag == tag then .ok ⟨a.cell⟩ else .error .TypeMismatch

/-- `<HostRef<T> as InternalRefBase>::ptr_eq`: downcast the other erased
object to `HostRef<T>` (tag comparison); on success `Rc::ptr_eq` of the two
cell storages, on failure `false`. -/
def InternalRefBase.ptr_eq (s : State) (i j : Nat) : Bool :=
  match s.irs[i]?, s.irs[j]? with
  | some a, some b => a.typeTag == b.typeTag && a.cell == b.cell
  | _, _ => false

/-- `ExternRef::new`: wrap the payload in a fresh `OtherRef` cell. -/
def ExternRef.new (s : State) (d : Nat) : ExternRef × State :=
  (.Other s.others.length,
   { s with others := s.others ++ [{ any := d, host_info := none, borrow := .free }] })

/-- `ExternRef::null`. -/
def ExternRef.null : ExternRef :=
  .Null

/-- `ExternRef::ptr_eq`: the case analysis from the source. -/
def ExternRef.ptr_eq (s : State) (a b : ExternRef) : Bool :=
  match a, b with
  | .Null, .Null => true
  | .Ref i, .Ref j => InternalRefBase.ptr_eq s i j
  | .Other x, .Other y => x == y
  | _, _ => false

/-- `ExternRef::data`: panics (`NotExternal`) unless the variant is `Other`;
otherwise `RefCell::borrow` mapped onto the payload, whose guard is modelled
by bumping the read count. -/
def ExternRef.data (s : State) (h : ExternRef) : Except RefError (Nat × State) :=
  match h with
  | .Other o =>
    match s.others[o]? with
    | none => .error .InvalidHandle
    | some ob =>
      match ob.borrow with
      | .writing => .error .BorrowConflict
      | .free =>
        .ok (ob.any,
          { s with others := s.others.set o { ob with borrow := .reading 1 } })
      | .reading n =>
        .ok (ob.any,
          { s with others := s.others.set o { ob with borrow := .reading (n + 1) } })
  | _ => .error .NotExternal

/-- `ExternRef::host_info`: panics (`NullReferent`) on `Null`; otherwise a
`RefCell::borrow_mut` of the referent's box (so any outstanding borrow is a
`BorrowConflict`).  When the slot is empty the guard is dropped at once and
`none` is returned; when it is full the mapped `RefMut` guard is returned to
the caller, modelled by leaving the box mutably borrowed. -/
def ExternRef.host_info (s : State) (h : ExternRef) : Except RefError (Option Nat × State) :=
  match h with
  | .Null => .error .NullReferent
  | .Ref i =>
    match s.irs[i]? with
    | none => .error .InvalidHandle
    | some a =>
      match s.cells[a.cell]? with
      | none => .error .InvalidHandle
      | some box =>
        match box.borrow with
        | .free =>
          match box.host_info with
          | none => .ok (none, s)
          | some v =>
            .ok (some v,
              { s with cells := s.cells.set a.cell { box with borrow := .writing } })
        | _ => .error .BorrowConflict
  | .Other o =>
    match s.others[o]? with
    | none => .error .InvalidHandle
    | some ob =>
      match ob.borrow with
      | .free =>
        match ob.host_info with
        | none => .ok (none, s)
        | some v =>
          .ok (some v,
            { s with others := s.others.set o { ob with borrow := .writing } })
      | _ => .error .BorrowConflict

/-- `ExternRef::set_host_info`: panics (`NullReferent`) on `Null`; otherwise
a transient `RefCell::borrow_mut` that overwrites the host-info slot. -/
def ExternRef.set_host_info (s : State) (h : ExternRef) (info : Option Nat) :
    Except RefError State :=
  match h with
  | .Null => .error .NullReferent
  | .Ref i =>
    match s.irs[i]? with
    | none => .error .InvalidHandle
    | some a =>
      match s.cells[a.cell]? with
      | none => .error .InvalidHandle
      | some box =>
        match box.borrow with
        | .free =>
          .ok { s with cells := s.cells.set a.cell { box with host_info := info } }
        | _ => .error .BorrowConflict
  | .Other o =>
    match s.others[o]? with
    | none => .error .InvalidHandle
    | some ob =>
      match ob.borrow with
      | .free =>
        .ok { s with others := s.others.set o { ob with host_info := info } }
      | _ => .error .BorrowConflict

/-! ### Shared helper lemmas and sample states -/

theorem weakUpgrade_eq_some {s : State} {w : Option Nat} {i : Nat} {a : IRAlloc}
    (h : weakUpgrade s w = some (i, a)) :
    w = some i ∧ s.irs[i]? = some a ∧ a.strong ≠ 0 := by
  cases w with
  | none => simp [weakUpgrade] at h
  | some j =>
    cases hj : s.irs[j]? with
    | none => simp [weakUpgrade, hj] at h
    | some b =>
      by_cases hb : b.strong = 0
      · simp [weakUpgrade, hj, hb] at h
      · simp [weakUpgrade, hj, hb] at h
        obtain ⟨h1, h2⟩ := h
        subst h1
        cases h2
        exact ⟨rfl, hj, hb⟩

/-- A one-cell heap: a single `HostRef` cell of type tag `7`, content `5`,
no host info, empty weak cache, not borrowed. -/
def oneCellState : State :=
  { cells := [{ typeTag := 7, content := 5, host_info := none,
                externref_data := none, borrow := .free }],
    irs := [], others := [] }

/-- C1: for any cell with no outstanding borrow, calling `externref` twice
in sequence (the first handle being kept alive in between) succeeds and the
two handles are identity-equal, in both orders of comparison. -/
theorem externref_idempotent_identity_while_alive
    (s : State) (r : HostRef) (box : ContentBox)
    (hc : s.cells[r.cell]? = some box) (hb : box.borrow = BorrowFlag.free) :
    ∃ h₁ s₁ h₂ s₂,
      HostRef.externref s r = Except.ok (h₁, s₁) ∧
      HostRef.externref s₁ r = Except.ok (h₂, s₂) ∧
      ExternRef.ptr_eq s₂ h₁ h₂ = true ∧
      ExternRef.ptr_eq s₂ h₂ h₁ = true := by
  have hlt : r.cell < s.cells.length := (List.getElem?_eq_some.mp hc).1
  cases hup : weakUpgrade s box.externref_data with
  | some p =>
    obtain ⟨i, a⟩ := p
    obtain ⟨hw, hia, hstr⟩ := weakUpgrade_eq_some hup
    have hilt : i < s.irs.length := (List.getElem?_eq_some.mp hia).1
    have e1 : HostRef.externref s r =
        Except.ok (ExternRef.Ref i,
          { s with irs := s.irs.set i { a with strong := a.strong + 1 } }) := by
      simp [HostRef.externref, hc, hb, hup]
    have e2 : HostRef.externref
        { s with irs := s.irs.set i { a with strong := a.strong + 1 } } r =
        Except.ok (ExternRef.Ref i,
          { s with irs := s.irs.set i { a with strong := a.strong + 1 + 1 } }) := by
      simp [HostRef.externref, hc, hb, weakUpgrade, hw, List.getElem?_set_self', hilt]
    have e3 : ExternRef.ptr_eq
        { s with irs := s.irs.set i { a with strong := a.strong + 1 + 1 } }
        (ExternRef.Ref i) (ExternRef.Ref i) = true := by
      simp [ExternRef.ptr_eq, InternalRefBase.ptr_eq, List.getElem?_set_self', hilt]
    exact ⟨_, _, _, _, e1, e2, e3, e3⟩
  | none =>
    have e1 : HostRef.externref s r =
        Except.ok (ExternRef.Ref s.irs.length,
          { s with
            irs := s.irs ++ [({ cell := r.cell, typeTag := box.typeTag, strong := 1 } : IRAlloc)],
            cells := s.cells.set r.cell
              { box with externref_data := some s.irs.length } }) := by
      simp [HostRef.externref, hc, hb, hup]
    have e2 : HostRef.externref
        { s with
          irs := s.irs ++ [({ cell := r.cell, typeTag := box.typeTag, strong := 1 } : IRAlloc)],
          cells := s.cells.set r.cell
            { box with externref_data := some s.irs.length } } r =
        Except.ok (ExternRef.Ref s.irs.length,
          { s with
            irs := (s.irs ++
                [({ cell := r.cell, typeTag := box.typeTag, strong := 1 } : IRAlloc)]).set s.irs.length
                { cell := r.cell, typeTag := box.typeTag, strong := 1 + 1 },
            cells := s.cells.set r.cell
              { box with externref_data := some s.irs.length } }) := by
      simp [HostRef.externref, hb, weakUpgrade, List.getElem?_set_self', hlt]
    have e3 : ExternRef.ptr_eq
        { s with
          irs := (s.irs ++
              [({ cell := r.cell, typeTag := box.typeTag, strong := 1 } : IRAlloc)]).set s.irs.length
              { cell := r.cell, typeTag := box.typeTag, strong := 1 + 1 },
          cells := s.cells.set r.cell
            { box with externref_data := some s.irs.length } }
        (ExternRef.Ref s.irs.length) (ExternRef.Ref s.irs.length) = true := by
      have hlen : s.irs.length <
          ((s.irs ++
            [({ cell := r.cell, typeTag := box.typeTag, strong := 1 } : IRAlloc)]) :
            List IRAlloc).length := by
        simp
      simp [ExternRef.ptr_eq, InternalRefBase.ptr_eq, List.getElem?_set_self', hlen]
    exact ⟨_, _, _, _, e1, e2, e3, e3⟩

/-- Witness for C1 on the concrete one-cell heap. -/
theorem externref_idempotent_identity_while_alive_witness :
    ∃ h₁ s₁ h₂ s₂,
      HostRef.externref oneCellState ⟨0⟩ = Except.ok (h₁, s₁) ∧
      HostRef.externref s₁ ⟨0⟩ = Except.ok (h₂, s₂) ∧
      ExternRef.ptr_eq s₂ h₁ h₂ = true ∧
      ExternRef.ptr_eq s₂ h₂ h₁ = true :=
  externref_idempotent_identity_while_alive oneCellState ⟨0⟩ _ rfl rfl

/-- C2: the failing input, run end to end.  The caller takes only an
immutable borrow of the cell (`HostRef.borrow` succeeds and its guard is
kept), yet `externref` then fails with `BorrowConflict`, because its first
statement takes `RefCell::borrow_mut`.  The method's own doc comment says it
panics only when the cell is already **mutably** borrowed, and the claim
says a conflict can only occur under a caller-held mutable borrow; the code
conflicts with a shared borrow as well. -/
theorem externref_conflicts_with_shared_borrow :
    ∃ s₁,
      HostRef.borrow oneCellState ⟨0⟩ = Except.ok (5, s₁) ∧
      HostRef.externref s₁ ⟨0⟩ = Except.error RefError.BorrowConflict := by
  exact ⟨_, rfl, rfl⟩

/-- A one-cell heap together with its minted `InternalRef` allocation, the
cell's weak cache pointing at it and one live strong count. -/
def oneIRState : State :=
  { cells := [{ typeTag := 7, content := 5, host_info := none,
                externref_data := some 0, borrow := .free }],
    irs := [{ cell := 0, typeTag := 7, strong := 1 }], others := [] }

/-- C3: on an `InternalRef` allocation erasing a cell of concrete type tag
`a.typeTag`, `get_ref` at any other tag fails with `TypeMismatch`;
`get_ref` at the right tag succeeds and the returned `HostRef` is
`ptr_eq`-identical to every owner of the erased cell; and `is_ref` holds
exactly for the erased concrete type. -/
theorem get_ref_downcast
    (s : State) (i : Nat) (a : IRAlloc) (hia : s.irs[i]? = some a) :
    (∀ u, u ≠ a.typeTag →
      InternalRef.get_ref s i u = Except.error RefError.TypeMismatch) ∧
    (∃ r : HostRef, InternalRef.get_ref s i a.typeTag = Except.ok r ∧
      ∀ orig : HostRef, orig.cell = a.cell → HostRef.ptr_eq r orig = true) ∧
    (∀ u, InternalRef.is_ref s i u = (a.typeTag == u)) := by
  refine ⟨?_, ⟨⟨a.cell⟩, ?_, ?_⟩, ?_⟩
  · intro u hu
    simp [InternalRef.get_ref, hia, beq_iff_eq, Ne.symm hu]
  · simp [InternalRef.get_ref, hia]
  · intro orig ho
    simp [HostRef.ptr_eq, ho]
  · intro u
    simp [InternalRef.is_ref, hia]

/-- Witness for C3 on the concrete one-allocation heap: tag `3` is refused
with `TypeMismatch`, tag `7` is accepted and yields the erased cell `0`, and
`is_ref` answers `true` at `7` and `false` at `3`. -/
theorem get_ref_downcast_witness :
    InternalRef.get_ref oneIRState 0 3 = Except.error RefError.TypeMismatch ∧
    (∃ r : HostRef, InternalRef.get_ref oneIRState 0 7 = Except.ok r ∧
      HostRef.ptr_eq r ⟨0⟩ = true) ∧
    InternalRef.is_ref oneIRState 0 7 = true ∧
    InternalRef.is_ref oneIRState 0 3 = false := by
  obtain ⟨h1, ⟨r, hr, hpe⟩, h3⟩ := get_ref_downcast oneIRState 0 _ rfl
  exact ⟨h1 3 (by decide), ⟨r, hr, hpe ⟨0⟩ rfl⟩, by simpa using h3 7, by simpa using h3 3⟩

/-- C4: the identity comparison is the exact case analysis of the source:
`Null` equals only `Null`; two `Ref`s are equal exactly when they erase the
same cell storage (the tag hypothesis records that in Rust a cell determines
its concrete type, which the untyped model loses); two `Other`s are equal
exactly when they share the cell; and every cross-variant pair is unequal. -/
theorem ptr_eq_case_analysis
    (s : State) (i j x y : Nat) (a b : IRAlloc)
    (hia : s.irs[i]? = some a) (hjb : s.irs[j]? = some b)
    (htag : a.cell = b.cell → a.typeTag = b.typeTag) :
    ExternRef.ptr_eq s ExternRef.Null ExternRef.Null = true ∧
    (ExternRef.ptr_eq s (ExternRef.Ref i) (ExternRef.Ref j) = true ↔ a.cell = b.cell) ∧
    ExternRef.ptr_eq s (ExternRef.Other x) (ExternRef.Other y) = (x == y) ∧
    ExternRef.ptr_eq s ExternRef.Null (ExternRef.Ref i) = false ∧
    ExternRef.ptr_eq s ExternRef.Null (ExternRef.Other x) = false ∧
    ExternRef.ptr_eq s (ExternRef.Ref i) ExternRef.Null = false ∧
    ExternRef.ptr_eq s (ExternRef.Ref i) (ExternRef.Other x) = false ∧
    ExternRef.ptr_eq s (ExternRef.Other x) ExternRef.Null = false ∧
    ExternRef.ptr_eq s (ExternRef.Other x) (ExternRef.Ref i) = false := by
  refine ⟨rfl, ?_, rfl, rfl, rfl, rfl, rfl, rfl, rfl⟩
  constructor
  · intro h
    simp [ExternRef.ptr_eq, InternalRefBase.ptr_eq, hia, hjb] at h
    exact h.2
  · intro h
    simp [ExternRef.ptr_eq, InternalRefBase.ptr_eq, hia, hjb, h, htag h]

/-- Witness for C4 on the concrete one-allocation heap. -/
theorem ptr_eq_case_analysis_witness :
    ExternRef.ptr_eq oneIRState ExternRef.Null ExternRef.Null = true ∧
    (ExternRef.ptr_eq oneIRState (ExternRef.Ref 0) (ExternRef.Ref 0) = true ↔
      (0 : Nat) = 0) ∧
    ExternRef.ptr_eq oneIRState (ExternRef.Other 1) (ExternRef.Other 2) = ((1 : Nat) == 2) ∧
    ExternRef.ptr_eq oneIRState ExternRef.Null (ExternRef.Ref 0) = false ∧
    ExternRef.ptr_eq oneIRState ExternRef.Null (ExternRef.Other 1) = false ∧
    ExternRef.ptr_eq oneIRState (ExternRef.Ref 0) ExternRef.Null = false ∧
    ExternRef.ptr_eq oneIRState (ExternRef.Ref 0) (ExternRef.Other 1) = false ∧
    ExternRef.ptr_eq oneIRState (ExternRef.Other 1) ExternRef.Null = false ∧
    ExternRef.ptr_eq oneIRState (ExternRef.Other 1) (ExternRef.Ref 0) = false :=
  ptr_eq_case_analysis oneIRState 0 0 1 2 _ _ rfl rfl (fun _ => rfl)

/-- C5 counterexample, run end to end on the one-cell heap: externalize
(`Ref 0` is minted), drop that only handle (its allocation's strong count
reaches `0`, so the weak cache is dead), externalize again (a fresh
allocation `Ref 1` is minted).  The claim says the new handle is **not**
identity-equal to the previously produced, now-dead handle; but `ptr_eq`
compares the underlying cell storage, not the `InternalRef` allocation, so
the comparison with the stale handle value yields `true`. -/
theorem externref_dead_handle_still_identity_equal :
    ∃ s₁ s₃,
      HostRef.externref oneCellState ⟨0⟩ = Except.ok (ExternRef.Ref 0, s₁) ∧
      (ExternRef.dropHandle s₁ (ExternRef.Ref 0)).irs[0]? =
        some { cell := 0, typeTag := 7, strong := 0 } ∧
      HostRef.externref (ExternRef.dropHandle s₁ (ExternRef.Ref 0)) ⟨0⟩ =
        Except.ok (ExternRef.Ref 1, s₃) ∧
      ExternRef.ptr_eq s₃ (ExternRef.Ref 1) (ExternRef.Ref 0) = true := by
  exact ⟨_, _, rfl, rfl, rfl, rfl⟩

/-- C5 amended: once the weak cache no longer upgrades (every handle of the
cached allocation has been dropped), `externref` mints a **fresh**
`InternalRef` allocation — an id distinct from the dead cached one — and
re-caches it; but the minted handle still compares identity-equal to the
stale value of the dead handle, because `ptr_eq` compares cell storage (the
`a.cell = r.cell` hypothesis is the code invariant that a cell's cache only
ever points at an allocation erasing that same cell). -/
theorem externref_after_expiry_mints_fresh
    (s : State) (r : HostRef) (box : ContentBox)
    (hc : s.cells[r.cell]? = some box) (hb : box.borrow = BorrowFlag.free)
    (hdead : weakUpgrade s box.externref_data = none) :
    HostRef.externref s r =
      Except.ok (ExternRef.Ref s.irs.length,
        { s with
          irs := s.irs ++ [({ cell := r.cell, typeTag := box.typeTag, strong := 1 } : IRAlloc)],
          cells := s.cells.set r.cell
            { box with externref_data := some s.irs.length } }) ∧
    (∀ i, box.externref_data = some i → s.irs[i]? ≠ none → i ≠ s.irs.length) ∧
    (∀ i a, box.externref_data = some i → s.irs[i]? = some a →
      a.cell = r.cell → a.typeTag = box.typeTag →
      ExternRef.ptr_eq
        { s with
          irs := s.irs ++ [({ cell := r.cell, typeTag := box.typeTag, strong := 1 } : IRAlloc)],
          cells := s.cells.set r.cell
            { box with externref_data := some s.irs.length } }
        (ExternRef.Ref s.irs.length) (ExternRef.Ref i) = true) := by
  refine ⟨?_, ?_, ?_⟩
  · simp [HostRef.externref, hc, hb, hdead]
  · intro i hi hne
    cases hia : s.irs[i]? with
    | none => exact absurd hia hne
    | some a =>
      have hilt : i < s.irs.length := (List.getElem?_eq_some.mp hia).1
      omega
  · intro i a hi hia hcell htag
    have hilt : i < s.irs.length := (List.getElem?_eq_some.mp hia).1
    simp [ExternRef.ptr_eq, InternalRefBase.ptr_eq, List.getElem?_append, hilt, hia,
      hcell, htag]

/-- A one-cell heap whose cached `InternalRef` allocation has died: the weak
cache still names allocation `0`, but its strong count is `0`. -/
def deadCacheState : State :=
  { cells := [{ typeTag := 7, content := 5, host_info := none,
                externref_data := some 0, borrow := .free }],
    irs := [{ cell := 0, typeTag := 7, strong := 0 }], others := [] }

/-- The heap obtained by re-externalizing `deadCacheState`: allocation `1`
is freshly minted and cached. -/
def remintState : State :=
  { cells := [{ typeTag := 7, content := 5, host_info := none,
                externref_data := some 1, borrow := .free }],
    irs := [{ cell := 0, typeTag := 7, strong := 0 },
            { cell := 0, typeTag := 7, strong := 1 }], others := [] }

/-- Witness for the amended C5 on the concrete dead-cache heap. -/
theorem externref_after_expiry_mints_fresh_witness :
    HostRef.externref deadCacheState ⟨0⟩ = Except.ok (ExternRef.Ref 1, remintState) ∧
    (0 : Nat) ≠ 1 ∧
    ExternRef.ptr_eq remintState (ExternRef.Ref 1) (ExternRef.Ref 0) = true := by
  obtain ⟨h1, h2, h3⟩ := externref_after_expiry_mints_fresh deadCacheState ⟨0⟩ _ rfl rfl rfl
  exact ⟨h1, h2 0 rfl (by decide), h3 0 _ rfl rfl rfl rfl⟩

/-- C6: a clone of a `HostRef` shares its storage, hence is identity-equal
to it; and a freshly created cell is never identity-equal to any cell
already in the heap — in particular not to one holding an equal value. -/
theorem clone_shares_identity_and_new_is_fresh
    (s : State) (r : HostRef) (tag v c : Nat) (box : ContentBox)
    (hc : s.cells[c]? = some box) :
    HostRef.ptr_eq (HostRef.clone r) r = true ∧
    HostRef.ptr_eq r (HostRef.clone r) = true ∧
    HostRef.ptr_eq (HostRef.new s tag v).1 ⟨c⟩ = false := by
  have hlt : c < s.cells.length := (List.getElem?_eq_some.mp hc).1
  refine ⟨?_, ?_, ?_⟩
  · simp [HostRef.clone, HostRef.ptr_eq]
  · simp [HostRef.clone, HostRef.ptr_eq]
  · have hne : s.cells.length ≠ c := by omega
    simp [HostRef.new, HostRef.ptr_eq, hne]

/-- Witness for C6 on the concrete one-cell heap: the new cell carries the
same type tag and the same value `5` as cell `0`, yet is not identity-equal
to it. -/
theorem clone_shares_identity_and_new_is_fresh_witness :
    HostRef.ptr_eq (HostRef.clone ⟨0⟩) ⟨0⟩ = true ∧
    HostRef.ptr_eq ⟨0⟩ (HostRef.clone ⟨0⟩) = true ∧
    HostRef.ptr_eq (HostRef.new oneCellState 7 5).1 ⟨0⟩ = false :=
  clone_shares_identity_and_new_is_fresh oneCellState ⟨0⟩ 7 5 0 _ rfl

/-- The one-cell heap with the cell mutably borrowed. -/
def mutBorrowedState : State :=
  { cells := [{ typeTag := 7, content := 5, host_info := none,
                externref_data := none, borrow := .writing }],
    irs := [], others := [] }

/-- C7: while a mutable view is outstanding, both `borrow` and `borrow_mut`
fail with `BorrowConflict`, and after releasing the mutable view a `borrow`
succeeds; when no mutable view is outstanding, a `borrow` succeeds and a
second concurrent `borrow` succeeds as well. -/
theorem borrow_discipline
    (s : State) (r : HostRef) (box : ContentBox)
    (hc : s.cells[r.cell]? = some box) :
    (box.borrow = BorrowFlag.writing →
      HostRef.borrow s r = Except.error RefError.BorrowConflict ∧
      HostRef.borrow_mut s r = Except.error RefError.BorrowConflict ∧
      ∃ s₂, HostRef.borrow (HostRef.releaseBorrowMut s r) r =
        Except.ok (box.content, s₂)) ∧
    (box.borrow ≠ BorrowFlag.writing →
      ∃ s₁ s₂, HostRef.borrow s r = Except.ok (box.content, s₁) ∧
        HostRef.borrow s₁ r = Except.ok (box.content, s₂)) := by
  have hlt : r.cell < s.cells.length := (List.getElem?_eq_some.mp hc).1
  constructor
  · intro hw
    refine ⟨?_, ?_, ?_⟩
    · simp [HostRef.borrow, hc, hw]
    · simp [HostRef.borrow_mut, hc, hw]
    · refine ⟨{ s with cells := s.cells.set r.cell { box with borrow := .reading 1 } }, ?_⟩
      simp [HostRef.releaseBorrowMut, hc, hw, HostRef.borrow, List.getElem?_set_self', hlt]
  · intro hnw
    cases hbb : box.borrow with
    | writing => exact absurd hbb hnw
    | free =>
      refine ⟨{ s with cells := s.cells.set r.cell { box with borrow := .reading 1 } },
              { s with cells := s.cells.set r.cell { box with borrow := .reading (1 + 1) } },
              ?_, ?_⟩
      · simp [HostRef.borrow, hc, hbb]
      · simp [HostRef.borrow, List.getElem?_set_self', hlt]
    | reading n =>
      refine ⟨{ s with cells := s.cells.set r.cell { box with borrow := .reading (n + 1) } },
              { s with cells := s.cells.set r.cell { box with borrow := .reading (n + 1 + 1) } },
              ?_, ?_⟩
      · simp [HostRef.borrow, hc, hbb]
      · simp [HostRef.borrow, List.getElem?_set_self', hlt]

/-- Witness for C7: on the mutably borrowed heap both accesses fail and a
release re-enables `borrow`; on the unborrowed heap two concurrent reads
succeed. -/
theorem borrow_discipline_witness :
    (HostRef.borrow mutBorrowedState ⟨0⟩ = Except.error RefError.BorrowConflict ∧
     HostRef.borrow_mut mutBorrowedState ⟨0⟩ = Except.error RefError.BorrowConflict ∧
     ∃ s₂, HostRef.borrow (HostRef.releaseBorrowMut mutBorrowedState ⟨0⟩) ⟨0⟩ =
       Except.ok (5, s₂)) ∧
    (∃ s₁ s₂, HostRef.borrow oneCellState ⟨0⟩ = Except.ok (5, s₁) ∧
      HostRef.borrow s₁ ⟨0⟩ = Except.ok (5, s₂)) :=
  ⟨(borrow_discipline mutBorrowedState ⟨0⟩ _ rfl).1 rfl,
   (borrow_discipline oneCellState ⟨0⟩ _ rfl).2 (by decide)⟩

/-- A heap containing one `HostRef` cell (type tag `7`, content `5`, host
info `42`) with its minted `InternalRef` allocation, and one `OtherRef` cell
(payload `9`, host info `3`); nothing is borrowed. -/
def fullState : State :=
  { cells := [{ typeTag := 7, content := 5, host_info := some 42,
                externref_data := some 0, borrow := .free }],
    irs := [{ cell := 0, typeTag := 7, strong := 1 }],
    others := [{ any := 9, host_info := some 3, borrow := .free }] }

/-- The same heap with the `HostRef` cell mutably borrowed and the
`OtherRef` cell immutably borrowed. -/
def busyState : State :=
  { cells := [{ typeTag := 7, content := 5, host_info := some 42,
                externref_data := some 0, borrow := .writing }],
    irs := [{ cell := 0, typeTag := 7, strong := 1 }],
    others := [{ any := 9, host_info := some 3, borrow := .reading 1 }] }

/-- C8: both metadata operations fail with `NullReferent` on the `Null`
handle; on an unborrowed `Ref` or `Other` handle, `host_info` returns the
referent's current host-info slot (present or absent) and `set_host_info`
replaces exactly that slot. -/
theorem host_info_null_and_replace
    (s : State) (info : Option Nat) (i o : Nat) (a : IRAlloc)
    (box : ContentBox) (ob : OtherBox)
    (hia : s.irs[i]? = some a) (hcb : s.cells[a.cell]? = some box)
    (hbf : box.borrow = BorrowFlag.free)
    (hob : s.others[o]? = some ob) (hobf : ob.borrow = BorrowFlag.free) :
    ExternRef.host_info s ExternRef.Null = Except.error RefError.NullReferent ∧
    ExternRef.set_host_info s ExternRef.Null info = Except.error RefError.NullReferent ∧
    (∃ s₁, ExternRef.host_info s (ExternRef.Ref i) = Except.ok (box.host_info, s₁)) ∧
    ExternRef.set_host_info s (ExternRef.Ref i) info =
      Except.ok { s with cells := s.cells.set a.cell { box with host_info := info } } ∧
    (∃ s₁, ExternRef.host_info s (ExternRef.Other o) = Except.ok (ob.host_info, s₁)) ∧
    ExternRef.set_host_info s (ExternRef.Other o) info =
      Except.ok { s with others := s.others.set o { ob with host_info := info } } := by
  refine ⟨rfl, rfl, ?_, ?_, ?_, ?_⟩
  · cases hhi : box.host_info with
    | none => exact ⟨s, by simp [ExternRef.host_info, hia, hcb, hbf, hhi]⟩
    | some v =>
      exact ⟨{ s with cells := s.cells.set a.cell { box with borrow := .writing } },
        by simp [ExternRef.host_info, hia, hcb, hbf, hhi]⟩
  · simp [ExternRef.set_host_info, hia, hcb, hbf]
  · cases hhi : ob.host_info with
    | none => exact ⟨s, by simp [ExternRef.host_info, hob, hobf, hhi]⟩
    | some v =>
      exact ⟨{ s with others := s.others.set o { ob with borrow := .writing } },
        by simp [ExternRef.host_info, hob, hobf, hhi]⟩
  · simp [ExternRef.set_host_info, hob, hobf]

/-- Witness for C8 on the concrete two-cell heap, replacing host info with
`11`. -/
theorem host_info_null_and_replace_witness :
    ExternRef.host_info fullState ExternRef.Null = Except.error RefError.NullReferent ∧
    ExternRef.set_host_info fullState ExternRef.Null (some 11) =
      Except.error RefError.NullReferent ∧
    (∃ s₁, ExternRef.host_info fullState (ExternRef.Ref 0) = Except.ok (some 42, s₁)) ∧
    ExternRef.set_host_info fullState (ExternRef.Ref 0) (some 11) =
      Except.ok
        { cells := [{ typeTag := 7, content := 5, host_info := some 11,
                      externref_data := some 0, borrow := .free }],
          irs := [{ cell := 0, typeTag := 7, strong := 1 }],
          others := [{ any := 9, host_info := some 3, borrow := .free }] } ∧
    (∃ s₁, ExternRef.host_info fullState (ExternRef.Other 0) = Except.ok (some 3, s₁)) ∧
    ExternRef.set_host_info fullState (ExternRef.Other 0) (some 11) =
      Except.ok
        { cells := [{ typeTag := 7, content := 5, host_info := some 42,
                      externref_data := some 0, borrow := .free }],
          irs := [{ cell := 0, typeTag := 7, strong := 1 }],
          others := [{ any := 9, host_info := some 11, borrow := .free }] } :=
  host_info_null_and_replace fullState (some 11) 0 0 _ _ _ rfl rfl rfl rfl rfl

/-- C9: the payload accessor refuses the `Null` and `Ref` variants outright
(so content held in a `HostRef` cell is unreachable through it), and on an
`Other` handle that is not mutably borrowed it returns the opaque payload. -/
theorem data_requires_other_variant
    (s : State) (i o : Nat) (ob : OtherBox)
    (hob : s.others[o]? = some ob) (hw : ob.borrow ≠ BorrowFlag.writing) :
    ExternRef.data s ExternRef.Null = Except.error RefError.NotExternal ∧
    ExternRef.data s (ExternRef.Ref i) = Except.error RefError.NotExternal ∧
    (∃ s₁, ExternRef.data s (ExternRef.Other o) = Except.ok (ob.any, s₁)) := by
  refine ⟨rfl, rfl, ?_⟩
  cases hbb : ob.borrow with
  | writing => exact absurd hbb hw
  | free =>
    exact ⟨{ s with others := s.others.set o { ob with borrow := .reading 1 } },
      by simp [ExternRef.data, hob, hbb]⟩
  | reading n =>
    exact ⟨{ s with others := s.others.set o { ob with borrow := .reading (n + 1) } },
      by simp [ExternRef.data, hob, hbb]⟩

/-- Witness for C9 on the concrete two-cell heap. -/
theorem data_requires_other_variant_witness :
    ExternRef.data fullState ExternRef.Null = Except.error RefError.NotExternal ∧
    ExternRef.data fullState (ExternRef.Ref 0) = Except.error RefError.NotExternal ∧
    (∃ s₁, ExternRef.data fullState (ExternRef.Other 0) = Except.ok (9, s₁)) :=
  data_requires_other_variant fullState 0 0 _ rfl (by decide)

/-- C10: reading host info takes a `RefCell::borrow_mut` of the referent's
box even though it does not modify it: on a `Ref` or `Other` handle whose
box has any outstanding borrow (shared or mutable) the call fails with
`BorrowConflict`; and whenever a call returns a present host-info view, a
second call on the resulting heap fails with `BorrowConflict`, so two
metadata views of one referent can never be held at once. -/
theorem host_info_requires_exclusive_borrow
    (s : State) (i o : Nat) (a : IRAlloc) (box : ContentBox) (ob : OtherBox)
    (hia : s.irs[i]? = some a) (hcb : s.cells[a.cell]? = some box)
    (hob : s.others[o]? = some ob) :
    (box.borrow ≠ BorrowFlag.free →
      ExternRef.host_info s (ExternRef.Ref i) = Except.error RefError.BorrowConflict) ∧
    (∀ v s₁, ExternRef.host_info s (ExternRef.Ref i) = Except.ok (some v, s₁) →
      ExternRef.host_info s₁ (ExternRef.Ref i) = Except.error RefError.BorrowConflict) ∧
    (ob.borrow ≠ BorrowFlag.free →
      ExternRef.host_info s (ExternRef.Other o) = Except.error RefError.BorrowConflict) ∧
    (∀ v s₁, ExternRef.host_info s (ExternRef.Other o) = Except.ok (some v, s₁) →
      ExternRef.host_info s₁ (ExternRef.Other o) = Except.error RefError.BorrowConflict) := by
  have hclt : a.cell < s.cells.length := (List.getElem?_eq_some.mp hcb).1
  have holt : o < s.others.length := (List.getElem?_eq_some.mp hob).1
  refine ⟨?_, ?_, ?_, ?_⟩
  · intro hnb
    cases hbb : box.borrow with
    | free => exact absurd hbb hnb
    | writing => simp [ExternRef.host_info, hia, hcb, hbb]
    | reading n => simp [ExternRef.host_info, hia, hcb, hbb]
  · intro v s₁ h
    cases hbb : box.borrow with
    | writing => simp [ExternRef.host_info, hia, hcb, hbb] at h
    | reading n => simp [ExternRef.host_info, hia, hcb, hbb] at h
    | free =>
      cases hhi : box.host_info with
      | none => simp [ExternRef.host_info, hia, hcb, hbb, hhi] at h
      | some w =>
        simp [ExternRef.host_info, hia, hcb, hbb, hhi] at h
        obtain ⟨-, h2⟩ := h
        subst h2
        simp [ExternRef.host_info, hia, List.getElem?_set_self', hclt]
  · intro hnb
    cases hbb : ob.borrow with
    | free => exact absurd hbb hnb
    | writing => simp [ExternRef.host_info, hob, hbb]
    | reading n => simp [ExternRef.host_info, hob, hbb]
  · intro v s₁ h
    cases hbb : ob.borrow with
    | writing => simp [ExternRef.host_info, hob, hbb] at h
    | reading n => simp [ExternRef.host_info, hob, hbb] at h
    | free =>
      cases hhi : ob.host_info with
      | none => simp [ExternRef.host_info, hob, hbb, hhi] at h
      | some w =>
        simp [ExternRef.host_info, hob, hbb, hhi] at h
        obtain ⟨-, h2⟩ := h
        subst h2
        simp [ExternRef.host_info, List.getElem?_set_self', holt]

/-- Witness for C10: on the busy heap both metadata reads fail; on the
unborrowed heap a successful metadata read leaves the box mutably borrowed,
so the follow-up read fails. -/
theorem host_info_requires_exclusive_borrow_witness :
    ExternRef.host_info busyState (ExternRef.Ref 0) =
      Except.error RefError.BorrowConflict ∧
    ExternRef.host_info busyState (ExternRef.Other 0) =
      Except.error RefError.BorrowConflict ∧
    ExternRef.host_info
      { cells := [{ typeTag := 7, content := 5, host_info := some 42,
                    externref_data := some 0, borrow := .writing }],
        irs := [{ cell := 0, typeTag := 7, strong := 1 }],
        others := [{ any := 9, host_info := some 3, borrow := .free }] }
      (ExternRef.Ref 0) = Except.error RefError.BorrowConflict ∧
    ExternRef.host_info
      { cells := [{ typeTag := 7, content := 5, host_info := some 42,
                    externref_data := some 0, borrow := .free }],
        irs := [{ cell := 0, typeTag := 7, strong := 1 }],
        others := [{ any := 9, host_info := some 3, borrow := .writing }] }
      (ExternRef.Other 0) = Except.error RefError.BorrowConflict :=
  ⟨(host_info_requires_exclusive_borrow busyState 0 0 _ _ _ rfl rfl rfl).1 (by decide),
   (host_info_requires_exclusive_borrow busyState 0 0 _ _ _ rfl rfl rfl).2.2.1 (by decide),
   (host_info_requires_exclusive_borrow fullState 0 0 _ _ _ rfl rfl rfl).2.1 42 _ rfl,
   (host_info_requires_exclusive_borrow fullState 0 0 _ _ _ rfl rfl rfl).2.2.2 3 _ rfl⟩

end WasmtimeRef
